import Mathlib

/-!
Verification of the I/O value type system and Primitive Data Protocol of
`AzadLibrary` (`iodata.py`, `constants.py`).

Shallow embedding conventions:
* Python runtime values are modelled by the inductive `PyVal`.  Python `bool`
  is a native subclass of `int`; this is reflected in `isinstanceTy`.
* Python `float` (and `Decimal`, `Fraction`) values are modelled as exact
  rationals `ℚ`; decimal literals in the source are read as the exact decimal
  rationals they denote.
* Functions that can raise return `Except PyError _`; the error constructors
  mirror the Python exception classes raised by the source.
* Recursions that Python performs on the call stack are written with an
  explicit fuel argument so that every definition is structurally recursive
  and kernel-computable; the exported wrappers supply fuel that exceeds any
  possible recursion depth (`pySize` of the input plus one), and running out
  of fuel is modelled as Python's `RecursionError`.
-/

/-- Errors raised by the embedded code, mirroring the Python exception classes.
`failedDataValidation` models `FailedDataValidation` from the `errors` module
(not included in the provided sources); `framingError` models the plain
`Exception` raised for unexpected trailing data in
`receiveByPrimitiveDataProtocol`. -/
inductive PyError where
  | typeError
  | valueError
  | keyError
  | stopIteration
  | framingError
  | failedDataValidation
  | recursionError
  deriving DecidableEq, Repr

/-- The Python classes that occur in the `pytypes` entries of
`IODataTypesInfo`: `int`, `float`, `Decimal`, `Fraction`, `str`, `bool`. -/
inductive PyType where
  | int
  | float
  | decimal
  | fraction
  | str
  | bool
  deriving DecidableEq, Repr

/-- A Python runtime value, restricted to the native kinds the I/O layer
handles.  `float`, `decimal` and `fraction` carry the exact rational the
number denotes; `bytes`/`bytearray` carry their byte values; `dict` carries
its entries in insertion order; `set`/`frozenset` carry their elements in
iteration order. -/
inductive PyVal where
  | int (n : ℤ)
  | bool (b : Bool)
  | float (q : ℚ)
  | decimal (q : ℚ)
  | fraction (q : ℚ)
  | str (s : String)
  | list (xs : List PyVal)
  | tuple (xs : List PyVal)
  | set (xs : List PyVal)
  | frozenset (xs : List PyVal)
  | dict (kvs : List (PyVal × PyVal))
  | bytes (bs : List Nat)
  | bytearray (bs : List Nat)
  | none

mutual

/-- Structural size of a value, used only to compute sufficient fuel for the
fuel-based recursions below (any fuel not below the value's nesting depth
gives the Python semantics; `pySize` dominates the nesting depth). -/
def pySize : PyVal → Nat
  | .list xs => 1 + pySizeL xs
  | .tuple xs => 1 + pySizeL xs
  | .set xs => 1 + pySizeL xs
  | .frozenset xs => 1 + pySizeL xs
  | .dict kvs => 1 + pySizeKV kvs
  | _ => 1

/-- Total size of a list of values. -/
def pySizeL : List PyVal → Nat
  | [] => 0
  | x :: xs => pySize x + pySizeL xs

/-- Total size of a list of key/value pairs. -/
def pySizeKV : List (PyVal × PyVal) → Nat
  | [] => 0
  | (k, v) :: rest => pySize k + pySize v + pySizeKV rest

end

/-- Numeric view of a value: Python compares `int`, `bool`, `float`,
`Decimal` and `Fraction` values by their numeric value (`True == 1 == 1.0`). -/
def toQ? : PyVal → Option ℚ
  | .int n => some (n : ℚ)
  | .bool b => some (if b then 1 else 0)
  | .float q => some q
  | .decimal q => some q
  | .fraction q => some q
  | _ => Option.none

/-- `isinstance(v, t)` for the classes appearing in `pytypes` tuples.
Python `bool` is a subclass of `int`, so a boolean is an instance of `int`. -/
def isinstanceTy : PyVal → PyType → Bool
  | .int _, .int => true
  | .bool _, .int => true
  | .bool _, .bool => true
  | .float _, .float => true
  | .decimal _, .decimal => true
  | .fraction _, .fraction => true
  | .str _, .str => true
  | _, _ => false

/-- Pointwise equality of two lists under a given element equality. -/
def listEqWith (eq : PyVal → PyVal → Bool) : List PyVal → List PyVal → Bool
  | [], [] => true
  | x :: xs, y :: ys => eq x y && listEqWith eq xs ys
  | _, _ => false

/-- Membership of a value in a list under a given equality. -/
def memWith (eq : PyVal → PyVal → Bool) (v : PyVal) : List PyVal → Bool
  | [] => false
  | x :: xs => eq v x || memWith eq v xs

/-- Every element of the first list occurs in the second, under `eq`. -/
def allMemWith (eq : PyVal → PyVal → Bool) (xs ys : List PyVal) : Bool :=
  xs.all (fun x => memWith eq x ys)

/-- Python set equality: mutual containment of the element collections. -/
def setEqWith (eq : PyVal → PyVal → Bool) (xs ys : List PyVal) : Bool :=
  allMemWith eq xs ys && allMemWith eq ys xs

/-- Association-list lookup under a given key equality. -/
def lookupWith (eq : PyVal → PyVal → Bool) (k : PyVal) :
    List (PyVal × PyVal) → Option PyVal
  | [] => Option.none
  | (k₀, v₀) :: rest => if eq k₀ k then some v₀ else lookupWith eq k rest

/-- Python dict equality: same size, and every entry of the first occurs in
the second with an equal value. -/
def dictEqWith (eq : PyVal → PyVal → Bool)
    (xs ys : List (PyVal × PyVal)) : Bool :=
  xs.length == ys.length &&
    xs.all (fun kv =>
      match lookupWith eq kv.1 ys with
      | some v => eq kv.2 v
      | Option.none => false)

/-- Python `==` on values, with fuel bounding the recursion depth.  Numbers
compare by numeric value across kinds, `list` and `tuple` never compare
equal to each other, `set`/`frozenset` compare by membership, `bytes` and
`bytearray` compare by content. -/
def pyEqFuel : Nat → PyVal → PyVal → Bool
  | 0, _, _ => false
  | f+1, a, b =>
    match toQ? a, toQ? b with
    | some x, some y => decide (x = y)
    | _, _ =>
      match a, b with
      | .str s, .str t => s == t
      | .none, .none => true
      | .list xs, .list ys => listEqWith (pyEqFuel f) xs ys
      | .tuple xs, .tuple ys => listEqWith (pyEqFuel f) xs ys
      | .set xs, .set ys => setEqWith (pyEqFuel f) xs ys
      | .set xs, .frozenset ys => setEqWith (pyEqFuel f) xs ys
      | .frozenset xs, .set ys => setEqWith (pyEqFuel f) xs ys
      | .frozenset xs, .frozenset ys => setEqWith (pyEqFuel f) xs ys
      | .dict xs, .dict ys => dictEqWith (pyEqFuel f) xs ys
      | .bytes xs, .bytes ys => xs == ys
      | .bytes xs, .bytearray ys => xs == ys
      | .bytearray xs, .bytes ys => xs == ys
      | .bytearray xs, .bytearray ys => xs == ys
      | _, _ => false

/-- Python `==` on values (fuel instantiated past any possible depth). -/
def pyEq (a b : PyVal) : Bool :=
  pyEqFuel (pySize a + pySize b + 1) a b

/-- `data[key] = value` on a dict modelled as an insertion-ordered
association list: an existing key (under Python `==`) keeps its position and
original key object and gets the new value; a new key is appended. -/
def dictInsert : List (PyVal × PyVal) → PyVal → PyVal → List (PyVal × PyVal)
  | [], k, v => [(k, v)]
  | (k₀, v₀) :: rest, k, v =>
    if pyEq k₀ k then (k₀, v) :: rest else (k₀, v₀) :: dictInsert rest k v

/-- Append an element unless an equal one is already present: one step of
Python `set` construction from an iterable. -/
def insertDistinctWith (eq : PyVal → PyVal → Bool)
    (acc : List PyVal) (x : PyVal) : List PyVal :=
  if memWith eq x acc then acc else acc ++ [x]

/-- Python `set(iterable)`: keep the first occurrence of each element. -/
def dedupWith (eq : PyVal → PyVal → Bool) (xs : List PyVal) : List PyVal :=
  xs.foldl (insertDistinctWith eq) []


/-- `DefaultFloatPrecision = 1e-3` from `constants.py`, read as the exact
decimal rational. -/
def DefaultFloatPrecision : ℚ := mkRat 1 1000

/-- One entry of `IODataTypesInfo`: the `pytypes` tuple and the `constraint`
predicate (every entry of the source dictionary has a constraint). -/
structure DTInfo where
  pytypes : List PyType
  constraint : PyVal → Bool

/-- Constraint of `"int"`: `-(2**31) <= x <= 2**31 - 1`.  A Python `bool`
passes `isinstance(x, (int,))` and its numeric value 0 or 1 is inside the
range. -/
def intConstraint : PyVal → Bool
  | .int n => decide (-(2 ^ 31) ≤ n ∧ n ≤ 2 ^ 31 - 1)
  | .bool _ => true
  | _ => false

/-- Constraint of `"long long"`: `-(2**63) <= x <= 2**63 - 1`. -/
def longLongConstraint : PyVal → Bool
  | .int n => decide (-(2 ^ 63) ≤ n ∧ n ≤ 2 ^ 63 - 1)
  | .bool _ => true
  | _ => false

/-- Constraint of `"float"`: `1.175494351e-38 <= abs(x) <= 3.402823466e38`,
the decimal literals read as exact rationals. -/
def floatConstraint (v : PyVal) : Bool :=
  match toQ? v with
  | some q => decide (mkRat 1175494351 (10 ^ 47) ≤ |q| ∧ |q| ≤ mkRat (3402823466 * 10 ^ 29) 1)
  | Option.none => false

/-- Constraint of `"double"`: `float_info.min <= abs(x) <= float_info.max`,
where IEEE double gives `min = 2^-1022` and `max = (2^53 - 1) * 2^971`. -/
def doubleConstraint (v : PyVal) : Bool :=
  match toQ? v with
  | some q => decide (mkRat 1 (2 ^ 1022) ≤ |q| ∧ |q| ≤ mkRat ((2 ^ 53 - 1) * 2 ^ 971) 1)
  | Option.none => false

/-- Constraint of `"str"`: the text must encode to ASCII, i.e. every
character is a 7-bit code point. -/
def strConstraint : PyVal → Bool
  | .str s => s.data.all (fun c => decide (c.toNat ≤ 127))
  | _ => false

/-- Constraint of `"bool"`: `isinstance(x, bool) or (x in (0, 1))`; the
membership test uses Python `==`, so it is a numeric comparison with 0 or 1. -/
def boolConstraint : PyVal → Bool
  | .bool _ => true
  | .int n => decide (n = 0 ∨ n = 1)
  | .float q => decide (q = 0 ∨ q = 1)
  | .decimal q => decide (q = 0 ∨ q = 1)
  | .fraction q => decide (q = 0 ∨ q = 1)
  | _ => false

/-- Registry entry for `"int"`. -/
def intInfo : DTInfo := ⟨[.int], intConstraint⟩

/-- Registry entry for `"long long"`. -/
def longLongInfo : DTInfo := ⟨[.int], longLongConstraint⟩

/-- Registry entry for `"float"`: `pytypes = (float, Decimal, Fraction)`. -/
def floatInfo : DTInfo := ⟨[.float, .decimal, .fraction], floatConstraint⟩

/-- Registry entry for `"double"`: `pytypes = (float, Decimal, Fraction)`. -/
def doubleInfo : DTInfo := ⟨[.float, .decimal, .fraction], doubleConstraint⟩

/-- Registry entry for `"str"`. -/
def strInfo : DTInfo := ⟨[.str], strConstraint⟩

/-- Registry entry for `"bool"`: `pytypes = (bool, int)`. -/
def boolInfo : DTInfo := ⟨[.bool, .int], boolConstraint⟩

/-- `IODataTypesInfo` as an ordered association list: a Python dict preserves
insertion order, so iteration sees the six canonical entries first and then
the six aliases, exactly in the source's insertion order. -/
def IODataTypesInfo : List (String × DTInfo) :=
  [("int", intInfo), ("long long", longLongInfo), ("float", floatInfo),
   ("double", doubleInfo), ("str", strInfo), ("bool", boolInfo),
   ("integer", intInfo), ("long", longLongInfo), ("long long int", longLongInfo),
   ("real", doubleInfo), ("string", strInfo), ("boolean", boolInfo)]

/-- Dictionary lookup `IODataTypesInfo[name]` (names are unique, so the
first hit is the entry). -/
def lookupType (name : String) : Option DTInfo :=
  (IODataTypesInfo.find? (fun p => p.1 == name)).map (fun p => p.2)

/-- `checkPrecision(a, b, precision)` from `iodata.py`: non-positive
precision raises `ValueError`; near zero (`abs(a) <= 1e-10`) only the
absolute difference counts; otherwise absolute or relative difference. -/
def checkPrecision (a b precision : ℚ) : Except PyError Bool :=
  if precision ≤ 0 then .error .valueError
  else if |a| ≤ mkRat 1 (10 ^ 10) then .ok (decide (|a - b| ≤ precision))
  else .ok (decide (|a - b| ≤ precision ∨ |(a - b) / a| ≤ precision))

/-- The recursive core of `checkDataType`: at dimension 0 an `isinstance`
test against the accepted classes, at dimension `d+1` the value must be a
`list` or `tuple` all of whose elements check at dimension `d`
(`List.all` short-circuits on the first failure, like the source loop). -/
def checkDataTypeTys (tys : List PyType) : Nat → PyVal → Bool
  | 0, v => tys.any (fun t => isinstanceTy v t)
  | d+1, .list xs => xs.all (checkDataTypeTys tys d)
  | d+1, .tuple xs => xs.all (checkDataTypeTys tys d)
  | _+1, _ => false

/-- `checkDataType(data, variableType, dimension)` with a type-name string:
the name is resolved through `IODataTypesInfo` first (a `KeyError` escapes
for an unregistered name), then the recursive check runs. -/
def checkDataType (data : PyVal) (variableType : String) (dimension : Nat) :
    Except PyError Bool :=
  match lookupType variableType with
  | some info => .ok (checkDataTypeTys info.pytypes dimension data)
  | Option.none => .error .keyError

/-- Run a fallible check over a list, short-circuiting on the first `false`
(the `for element: if not check(element): return False` pattern). -/
def exceptAllWith (chk : PyVal → Except PyError Bool) :
    List PyVal → Except PyError Bool
  | [] => .ok true
  | x :: xs =>
    match chk x with
    | .ok true => exceptAllWith chk xs
    | .ok false => .ok false
    | .error e => .error e

/-- `checkDataCompatibility(data, targetType)` with fuel: recurse through
`list`/`tuple` nesting; at a leaf, an unknown type name raises `ValueError`,
a leaf failing the `isinstance` test raises `TypeError`, and otherwise the
type's constraint decides. -/
def checkDataCompatibilityFuel : Nat → PyVal → String → Except PyError Bool
  | 0, _, _ => .error .recursionError
  | f+1, data, targetType =>
    match data with
    | .list xs => exceptAllWith (fun x => checkDataCompatibilityFuel f x targetType) xs
    | .tuple xs => exceptAllWith (fun x => checkDataCompatibilityFuel f x targetType) xs
    | d =>
      match lookupType targetType with
      | Option.none => .error .valueError
      | some info =>
        if info.pytypes.any (fun t => isinstanceTy d t) then .ok (info.constraint d)
        else .error .typeError

/-- `checkDataCompatibility(data, targetType)` from `iodata.py`. -/
def checkDataCompatibility (data : PyVal) (targetType : String) :
    Except PyError Bool :=
  checkDataCompatibilityFuel (pySize data + 1) data targetType


/-- The element list of an ordered sequence (`list` or `tuple`), if any. -/
def elemsOf : PyVal → Option (List PyVal)
  | .list xs => some xs
  | .tuple xs => some xs
  | _ => Option.none

/-- `isinstance(other, type(first))`: membership in the exact runtime class
of `first`.  Since `bool` is a subclass of `int`, a boolean is an instance
of `type(1)`, but an `int` is not an instance of `type(True)`. -/
def isinstanceOfTypeOf : PyVal → PyVal → Bool
  | .int _, .int _ => true
  | .int _, .bool _ => true
  | .bool _, .bool _ => true
  | .float _, .float _ => true
  | .decimal _, .decimal _ => true
  | .fraction _, .fraction _ => true
  | .str _, .str _ => true
  | .list _, .list _ => true
  | .tuple _, .tuple _ => true
  | .set _, .set _ => true
  | .frozenset _, .frozenset _ => true
  | .dict _, .dict _ => true
  | .bytes _, .bytes _ => true
  | .bytearray _, .bytearray _ => true
  | .none, .none => true
  | _, _ => false

/-- Whether `isinstance(v, (float, Decimal, Fraction))` holds. -/
def isRealKind : PyVal → Bool
  | .float _ => true
  | .decimal _ => true
  | .fraction _ => true
  | _ => false

/-- Whether `isinstance(v, (int, bool, str))` holds. -/
def isIntBoolStr : PyVal → Bool
  | .int _ => true
  | .bool _ => true
  | .str _ => true
  | _ => false

/-- Total numeric view, only applied after an `isinstance` filter has
established the value is numeric. -/
def pyToQ (v : PyVal) : ℚ := (toQ? v).getD 0

/-- Compare the answer columns one by one, requiring every recursive
comparison to return true (short-circuiting like the source loop). -/
def compareColsWith (cmp : List PyVal → Except PyError Bool) :
    List (List PyVal) → Except PyError Bool
  | [] => .ok true
  | c :: cs =>
    match cmp c with
    | .ok true => compareColsWith cmp cs
    | .ok false => .ok false
    | .error e => .error e

/-- `compareAnswers(*answers, floatPrecision=...)` with fuel.  Faithful to
the source, including the recursive call `compareAnswers(*[answer[i] ...])`
on the sequence branch, which passes no `floatPrecision` and therefore uses
the default `DefaultFloatPrecision` for all nested comparisons. -/
def compareAnswersFuel : Nat → List PyVal → ℚ → Except PyError Bool
  | 0, _, _ => .error .recursionError
  | f+1, answers, floatPrecision =>
    if answers.length < 2 then .error .valueError
    else
      match answers with
      | [] => .error .valueError
      | a₀ :: _ =>
        match elemsOf a₀ with
        | some xs =>
          if answers.all (fun a =>
              match elemsOf a with
              | some ys => ys.length == xs.length
              | Option.none => false) then
            compareColsWith (fun c => compareAnswersFuel f c DefaultFloatPrecision)
              ((List.range xs.length).map
                (fun i => answers.map (fun a => (((elemsOf a).getD []).getD i .none))))
          else .ok false
        | Option.none =>
          if answers.all (fun a => isinstanceOfTypeOf a₀ a) then
            if isRealKind a₀ then
              exceptAllWith
                (fun a =>
                  match checkPrecision (pyToQ a₀) (pyToQ a) floatPrecision with
                  | .ok b => .ok b
                  | .error e => .error e)
                (answers.drop 1)
            else if isIntBoolStr a₀ then
              .ok ((answers.drop 1).all (fun a => pyEq a₀ a))
            else .error .typeError
          else .ok false

/-- `compareAnswers(*answers, floatPrecision)` from `iodata.py`. -/
def compareAnswers (answers : List PyVal) (floatPrecision : ℚ) :
    Except PyError Bool :=
  compareAnswersFuel (pySizeL answers + 1) answers floatPrecision


/-- The inner loop of `guessDataType`: iterate the registry entries in
declaration order at a fixed dimension; the first entry whose `checkDataType`
succeeds (and, when `validateConstraints`, whose `checkDataCompatibility`
also returns true) wins. -/
def guessDataTypeTypes :
    List (String × DTInfo) → PyVal → Nat → Bool → Except PyError (Option (String × Nat))
  | [], _, _, _ => .ok Option.none
  | (name, info) :: rest, data, dim, validateConstraints =>
    if checkDataTypeTys info.pytypes dim data then
      if validateConstraints then
        match checkDataCompatibility data name with
        | .ok true => .ok (some (name, dim))
        | .ok false => guessDataTypeTypes rest data dim validateConstraints
        | .error e => .error e
      else .ok (some (name, dim))
    else guessDataTypeTypes rest data dim validateConstraints

/-- The outer loop of `guessDataType`: iterate the candidate dimensions in
order; if none yields a match, raise `FailedDataValidation`. -/
def guessDataTypeDims : List Nat → PyVal → Bool → Except PyError (String × Nat)
  | [], _, _ => .error .failedDataValidation
  | d :: rest, data, validateConstraints =>
    match guessDataTypeTypes IODataTypesInfo data d validateConstraints with
    | .ok (some r) => .ok r
    | .ok Option.none => guessDataTypeDims rest data validateConstraints
    | .error e => .error e

/-- `guessDataType(data, dimension=None, validateConstraints=False)` from
`iodata.py`.  Modelled from the spec: the dimension bound
`MaxParameterDimensionAllowed` is imported from the constants module but its
definition is not in the provided sources; the spec says only that dimension
candidates run from 0 up to a configured maximum nesting depth, so the bound
is taken here as an explicit argument `maxDim` and the theorems below hold
for every value of it. -/
def guessDataType (maxDim : Nat) (data : PyVal) (dimension : Option Nat)
    (validateConstraints : Bool) : Except PyError (String × Nat) :=
  guessDataTypeDims
    (match dimension with
     | Option.none => List.range (maxDim + 1)
     | some d => [d])
    data validateConstraints


/-- The Python class stored in a protocol frame's `"type"` field.  The
encoder only ever emits `dict`, `list`, `str`, `bytes` and `bytearray`; the
decoder additionally dispatches on `tuple`, `set` and `frozenset`. -/
inductive ContainerTag where
  | dict
  | list
  | tuple
  | set
  | frozenset
  | str
  | bytes
  | bytearray
  deriving DecidableEq, Repr

/-- One item of the protocol stream: either a frame header
`{"type": tag, "len": length, "id": identifier}` or a bare literal. -/
inductive StreamItem where
  | frame (tag : ContainerTag) (len : ℤ) (id : PyVal)
  | atom (v : PyVal)

/-- Concatenate the encodings of the elements of a sequence. -/
def encodeEachWith (enc : PyVal → Except PyError (List StreamItem)) :
    List PyVal → Except PyError (List StreamItem)
  | [] => .ok []
  | x :: xs =>
    match enc x with
    | .ok items =>
      match encodeEachWith enc xs with
      | .ok rest => .ok (items ++ rest)
      | .error e => .error e
    | .error e => .error e

/-- Concatenate the encodings of the entries of a mapping, key before
value, in insertion order. -/
def encodePairsWith (enc : PyVal → Except PyError (List StreamItem)) :
    List (PyVal × PyVal) → Except PyError (List StreamItem)
  | [] => .ok []
  | (k, v) :: rest =>
    match enc k with
    | .ok ki =>
      match enc v with
      | .ok vi =>
        match encodePairsWith enc rest with
        | .ok ri => .ok (ki ++ vi ++ ri)
        | .error e => .error e
      | .error e => .error e
    | .error e => .error e

/-- `sendingPrimitiveDataProtocol(data, identifier)` with fuel.  A mapping
becomes a `dict` frame followed by interleaved key/value encodings;
`list`/`tuple`/`set`/`frozenset` all become a `list` frame followed by the
element encodings in iteration order; text and byte blocks become a frame of
their own class followed by their atomic units as bare literals (iterating a
`bytes`/`bytearray` yields integers); `int`/`float`/`bool`/`None` are bare
literals; anything else raises `TypeError`.  Recursive calls pass the
default identifier `None`. -/
def sendingFuel : Nat → PyVal → PyVal → Except PyError (List StreamItem)
  | 0, _, _ => .error .recursionError
  | f+1, data, identifier =>
    match data with
    | .dict kvs =>
      match encodePairsWith (fun v => sendingFuel f v .none) kvs with
      | .ok items => .ok (.frame .dict kvs.length identifier :: items)
      | .error e => .error e
    | .list xs =>
      match encodeEachWith (fun v => sendingFuel f v .none) xs with
      | .ok items => .ok (.frame .list xs.length identifier :: items)
      | .error e => .error e
    | .tuple xs =>
      match encodeEachWith (fun v => sendingFuel f v .none) xs with
      | .ok items => .ok (.frame .list xs.length identifier :: items)
      | .error e => .error e
    | .set xs =>
      match encodeEachWith (fun v => sendingFuel f v .none) xs with
      | .ok items => .ok (.frame .list xs.length identifier :: items)
      | .error e => .error e
    | .frozenset xs =>
      match encodeEachWith (fun v => sendingFuel f v .none) xs with
      | .ok items => .ok (.frame .list xs.length identifier :: items)
      | .error e => .error e
    | .str s =>
      .ok (.frame .str s.length identifier ::
        s.data.map (fun c => .atom (.str (String.singleton c))))
    | .bytes bs =>
      .ok (.frame .bytes bs.length identifier :: bs.map (fun b => .atom (.int b)))
    | .bytearray bs =>
      .ok (.frame .bytearray bs.length identifier :: bs.map (fun b => .atom (.int b)))
    | .int n => .ok [.atom (.int n)]
    | .float q => .ok [.atom (.float q)]
    | .bool b => .ok [.atom (.bool b)]
    | .none => .ok [.atom .none]
    | .decimal _ => .error .typeError
    | .fraction _ => .error .typeError

/-- `sendingPrimitiveDataProtocol(data, identifier=None)` from `iodata.py`,
producing the finite stream the generator yields. -/
def sendingPrimitiveDataProtocol (data : PyVal) (identifier : PyVal) :
    Except PyError (List StreamItem) :=
  sendingFuel (pySize data + 1) data identifier

/-- Decode `n` consecutive values from the stream. -/
def decodeNWith (dec : List StreamItem → Except PyError (PyVal × List StreamItem)) :
    Nat → List StreamItem → Except PyError (List PyVal × List StreamItem)
  | 0, l => .ok ([], l)
  | n+1, l =>
    match dec l with
    | .ok (v, l₁) =>
      match decodeNWith dec n l₁ with
      | .ok (vs, l₂) => .ok (v :: vs, l₂)
      | .error e => .error e
    | .error e => .error e

/-- Decode `n` consecutive key/value pairs (key first, then value) and
assign them into the accumulating dict, mirroring `data[key] = value`. -/
def decodeKVsWith (dec : List StreamItem → Except PyError (PyVal × List StreamItem)) :
    Nat → List (PyVal × PyVal) → List StreamItem →
    Except PyError (List (PyVal × PyVal) × List StreamItem)
  | 0, acc, l => .ok (acc, l)
  | n+1, acc, l =>
    match dec l with
    | .ok (k, l₁) =>
      match dec l₁ with
      | .ok (v, l₂) => decodeKVsWith dec n (dictInsert acc k v) l₂
      | .error e => .error e
    | .error e => .error e

/-- Read `length` bare units for a `str` frame and join them:
`"".join(...)` requires every unit to be a string. -/
def takeStrUnits : Nat → List StreamItem → Except PyError (String × List StreamItem)
  | 0, l => .ok ("", l)
  | _+1, [] => .error .stopIteration
  | n+1, .atom (.str s) :: rest =>
    match takeStrUnits n rest with
    | .ok (t, l) => .ok (s ++ t, l)
    | .error e => .error e
  | _+1, _ :: _ => .error .typeError

/-- Read `length` units for a `bytes` frame and join them:
`b''.join(...)` requires every unit to be bytes-like, so the integers the
encoder emitted for a byte block make this fail with `TypeError`. -/
def takeBytesUnits : Nat → List StreamItem → Except PyError (List Nat × List StreamItem)
  | 0, l => .ok ([], l)
  | _+1, [] => .error .stopIteration
  | n+1, .atom (.bytes bs) :: rest =>
    match takeBytesUnits n rest with
    | .ok (cs, l) => .ok (bs ++ cs, l)
    | .error e => .error e
  | n+1, .atom (.bytearray bs) :: rest =>
    match takeBytesUnits n rest with
    | .ok (cs, l) => .ok (bs ++ cs, l)
    | .error e => .error e
  | _+1, _ :: _ => .error .typeError

/-- Read `length` units for a `bytearray` frame: `bytearray(iterable)`
accepts integers (booleans included) in `0..255`. -/
def takeByteArrayUnits : Nat → List StreamItem →
    Except PyError (List Nat × List StreamItem)
  | 0, l => .ok ([], l)
  | _+1, [] => .error .stopIteration
  | n+1, .atom v :: rest =>
    match v with
    | .int b =>
      if 0 ≤ b ∧ b ≤ 255 then
        match takeByteArrayUnits n rest with
        | .ok (cs, l) => .ok (b.toNat :: cs, l)
        | .error e => .error e
      else .error .valueError
    | .bool b =>
      match takeByteArrayUnits n rest with
      | .ok (cs, l) => .ok ((if b then 1 else 0) :: cs, l)
      | .error e => .error e
    | _ => .error .typeError
  | _+1, .frame _ _ _ :: _ => .error .typeError

/-- `receiveByPrimitiveDataProtocol(iterable)` (no end check) with fuel.
The head is either a frame — whose `len` must be non-negative, and whose
tag selects how the following items are consumed — or a bare
`int`/`float`/`bool`/`None` literal returned directly; any other head is a
`TypeError`.  `list` and `tuple` frames both produce a Python list; `set`
and `frozenset` frames deduplicate under Python `==`. -/
def receiveFuel : Nat → List StreamItem → Except PyError (PyVal × List StreamItem)
  | 0, _ => .error .recursionError
  | _+1, [] => .error .stopIteration
  | _+1, .atom v :: rest =>
    match v with
    | .int n => .ok (.int n, rest)
    | .float q => .ok (.float q, rest)
    | .bool b => .ok (.bool b, rest)
    | .none => .ok (.none, rest)
    | _ => .error .typeError
  | f+1, .frame tag len _ :: rest =>
    if len < 0 then .error .valueError
    else
      match tag with
      | .dict =>
        match decodeKVsWith (receiveFuel f) len.toNat [] rest with
        | .ok (kvs, l) => .ok (.dict kvs, l)
        | .error e => .error e
      | .list =>
        match decodeNWith (receiveFuel f) len.toNat rest with
        | .ok (xs, l) => .ok (.list xs, l)
        | .error e => .error e
      | .tuple =>
        match decodeNWith (receiveFuel f) len.toNat rest with
        | .ok (xs, l) => .ok (.list xs, l)
        | .error e => .error e
      | .set =>
        match decodeNWith (receiveFuel f) len.toNat rest with
        | .ok (xs, l) => .ok (.set (dedupWith pyEq xs), l)
        | .error e => .error e
      | .frozenset =>
        match decodeNWith (receiveFuel f) len.toNat rest with
        | .ok (xs, l) => .ok (.frozenset (dedupWith pyEq xs), l)
        | .error e => .error e
      | .str =>
        match takeStrUnits len.toNat rest with
        | .ok (s, l) => .ok (.str s, l)
        | .error e => .error e
      | .bytes =>
        match takeBytesUnits len.toNat rest with
        | .ok (bs, l) => .ok (.bytes bs, l)
        | .error e => .error e
      | .bytearray =>
        match takeByteArrayUnits len.toNat rest with
        | .ok (bs, l) => .ok (.bytearray bs, l)
        | .error e => .error e

/-- One plain decode (the `checkEnd=False` behaviour), returning the decoded
value together with the part of the stream not yet consumed.  Every
successful inner decode consumes at least one item, so fuel exceeding the
stream length can never run out. -/
def receivePlain (iterable : List StreamItem) : Except PyError (PyVal × List StreamItem) :=
  receiveFuel (iterable.length + 1) iterable

/-- `receiveByPrimitiveDataProtocol(iterable, checkEnd)` from `iodata.py`.
With `checkEnd`, a normal decode runs first and any remaining item raises
the trailing-data protocol error. -/
def receiveByPrimitiveDataProtocol (iterable : List StreamItem) (checkEnd : Bool) :
    Except PyError (PyVal × List StreamItem) :=
  if checkEnd then
    match receivePlain iterable with
    | .ok (result, []) => .ok (result, [])
    | .ok (_, _ :: _) => .error .framingError
    | .error e => .error e
  else receivePlain iterable

/-- Encode a value and decode the produced stream. -/
def roundTrip (v : PyVal) : Except PyError (PyVal × List StreamItem) :=
  match sendingPrimitiveDataProtocol v .none with
  | .ok items => receiveByPrimitiveDataProtocol items false
  | .error e => .error e

/-- Membership equality of two element collections under Python `==`. -/
def sameMembersB (xs ys : List PyVal) : Bool :=
  allMemWith pyEq xs ys && allMemWith pyEq ys xs


/-- Whether a value is an ordered sequence (Python `list` or `tuple`). -/
def isOrderedSequence : PyVal → Bool
  | .list _ => true
  | .tuple _ => true
  | _ => false

/-- The first registry entry, in declaration order, whose `checkDataType`
test accepts `data` at dimension `d`. -/
def registryMatch (data : PyVal) (d : Nat) : Option (String × DTInfo) :=
  IODataTypesInfo.find? (fun p => checkDataTypeTys p.2.pytypes d data)

/-- Modelled from the spec's words for the testable property of
`checkDataType`: a value is a `d`-deep nesting of ordered sequences over
scalars whose native kind is accepted by `tys` (dimension 0 is such a
scalar; dimension `d+1` is an ordered sequence of dimension-`d` values). -/
inductive NestedSeqOf (tys : List PyType) : Nat → PyVal → Prop where
  | scalar (v : PyVal) :
      tys.any (fun t => isinstanceTy v t) = true → NestedSeqOf tys 0 v
  | listNode (d : Nat) (xs : List PyVal) :
      (∀ x ∈ xs, NestedSeqOf tys d x) → NestedSeqOf tys (d+1) (.list xs)
  | tupleNode (d : Nat) (xs : List PyVal) :
      (∀ x ∈ xs, NestedSeqOf tys d x) → NestedSeqOf tys (d+1) (.tuple xs)

/-- C1: decoding the stream produced by encoding `X` returns a value equal
to `X` for `X` among `42`, `3.5`, `"hi"`, `[1,2,3]`, `{1:10, 2:20}` and
`{1,2,3}`: exact structural equality in the first five cases, and for the
set case the decoded value (a list, since sets are framed with the `list`
tag) has exactly the members of the set. -/
theorem roundTrip_primitive_values :
    roundTrip (.int 42) = .ok (.int 42, []) ∧
    roundTrip (.float (7 / 2)) = .ok (.float (7 / 2), []) ∧
    roundTrip (.str "hi") = .ok (.str "hi", []) ∧
    roundTrip (.list [.int 1, .int 2, .int 3]) =
      .ok (.list [.int 1, .int 2, .int 3], []) ∧
    roundTrip (.dict [(.int 1, .int 10), (.int 2, .int 20)]) =
      .ok (.dict [(.int 1, .int 10), (.int 2, .int 20)], []) ∧
    (∃ ys, roundTrip (.set [.int 1, .int 2, .int 3]) = .ok (.list ys, []) ∧
      sameMembersB ys [.int 1, .int 2, .int 3] = true) :=
  ⟨rfl, rfl, rfl, rfl, rfl, ⟨[.int 1, .int 2, .int 3], rfl, rfl⟩⟩

/-- C2: the source's recursive call `compareAnswers(*[answer[i] ...])`
passes no `floatPrecision`, so nested elements are compared with the
default `1e-3` instead of the given precision: with precision `10`, the
scalars `0.0` and `1.0` compare equal, but the singleton lists `[0.0]` and
`[1.0]` do not. -/
theorem compareAnswers_nested_uses_default_precision :
    compareAnswers [.float 0, .float 1] 10 = .ok true ∧
    compareAnswers [.list [.float 0], .list [.float 1]] 10 = .ok false := by
  constructor
  · with_unfolding_all rfl
  · with_unfolding_all rfl

/-- C3 counterexample: `compareAnswers(1, "1")` does not raise — it returns
the boolean false (the `isinstance` type-check loop returns `False` on a
kind mismatch before any error can be raised). -/
theorem compareAnswers_int_str_default :
    compareAnswers [.int 1, .str "1"] DefaultFloatPrecision = .ok false := rfl

/-- C3 amended: for every precision, `compareAnswers(1, "1")` returns the
boolean false rather than raising a type-mismatch error. -/
theorem compareAnswers_int_str_false (fp : ℚ) :
    compareAnswers [.int 1, .str "1"] fp = .ok false := rfl

/-- C5: `checkPrecision` raises `ValueError` for every non-positive
precision; for positive precision it returns true iff the absolute
difference is within the precision when `|a| <= 1e-10`, and otherwise iff
the absolute or the relative difference is within the precision; in
particular `checkPrecision(a, a, p)` is true for every `a` and `p > 0`. -/
theorem checkPrecision_spec (a b p : ℚ) :
    (p ≤ 0 → checkPrecision a b p = .error .valueError) ∧
    (0 < p → |a| ≤ mkRat 1 (10 ^ 10) →
      (checkPrecision a b p = .ok true ↔ |a - b| ≤ p)) ∧
    (0 < p → mkRat 1 (10 ^ 10) < |a| →
      (checkPrecision a b p = .ok true ↔ (|a - b| ≤ p ∨ |(a - b) / a| ≤ p))) ∧
    (0 < p → checkPrecision a a p = .ok true) := by
  refine ⟨fun hp => ?_, fun hp hsm => ?_, fun hp hlg => ?_, fun hp => ?_⟩
  · simp only [checkPrecision]
    rw [if_pos hp]
  · simp only [checkPrecision]
    rw [if_neg (not_le.mpr hp), if_pos hsm]
    simp
  · simp only [checkPrecision]
    rw [if_neg (not_le.mpr hp), if_neg (not_le.mpr hlg)]
    simp
  · simp only [checkPrecision]
    rw [if_neg (not_le.mpr hp)]
    split
    · simp [sub_self, abs_zero, hp.le]
    · simp [sub_self, abs_zero, hp.le]

/-- C5 witness: the four parts of `checkPrecision_spec` at concrete
inputs. -/
theorem checkPrecision_spec_witness :
    checkPrecision 1 1 (-1) = .error .valueError ∧
    (checkPrecision 0 1 1 = .ok true ↔ |(0 : ℚ) - 1| ≤ 1) ∧
    (checkPrecision 1 2 1 = .ok true ↔ (|(1 : ℚ) - 2| ≤ 1 ∨ |((1 : ℚ) - 2) / 1| ≤ 1)) ∧
    checkPrecision 3 3 1 = .ok true :=
  ⟨(checkPrecision_spec 1 1 (-1)).1 (by norm_num),
   (checkPrecision_spec 0 1 1).2.1 one_pos (by with_unfolding_all decide),
   (checkPrecision_spec 1 2 1).2.2.1 one_pos (by with_unfolding_all decide),
   (checkPrecision_spec 3 3 1).2.2.2 one_pos⟩

/-- C6: if a plain decode succeeds and leaves at least one stream item
unconsumed, the same stream decoded with `checkEnd=true` raises the
trailing-data protocol error instead of returning the value. -/
theorem receive_checkEnd_trailing (items : List StreamItem) (v : PyVal)
    (rest : List StreamItem)
    (hdec : receiveByPrimitiveDataProtocol items false = .ok (v, rest))
    (hne : rest ≠ []) :
    receiveByPrimitiveDataProtocol items true = .error .framingError := by
  have hplain : receivePlain items = .ok (v, rest) := by
    simpa [receiveByPrimitiveDataProtocol] using hdec
  cases rest with
  | nil => exact absurd rfl hne
  | cons r rs => simp [receiveByPrimitiveDataProtocol, hplain]

/-- C6 witness: a literal `42` followed by a trailing literal `7`. -/
theorem receive_checkEnd_trailing_witness :
    receiveByPrimitiveDataProtocol [.atom (.int 42), .atom (.int 7)] true =
      .error .framingError :=
  receive_checkEnd_trailing [.atom (.int 42), .atom (.int 7)] (.int 42)
    [.atom (.int 7)] rfl (by simp)

/-- C7: `checkDataCompatibility(2**31, "int")` is false (outside the 32-bit
signed range) and `checkDataCompatibility(2**31, "long long")` is true
(inside the 64-bit signed range), with exact integer arithmetic. -/
theorem checkDataCompatibility_int32_range :
    checkDataCompatibility (.int (2 ^ 31)) "int" = .ok false ∧
    checkDataCompatibility (.int (2 ^ 31)) "long long" = .ok true :=
  ⟨rfl, rfl⟩

/-- C9: `compareAnswers` is not symmetric at scalar level:
`compareAnswers(1, True)` is true (a boolean is an instance of `type(1)`
and `1 == True`), while `compareAnswers(True, 1)` is false (an `int` is not
an instance of `type(True)`). -/
theorem compareAnswers_int_bool_asymmetric :
    compareAnswers [.int 1, .bool true] DefaultFloatPrecision = .ok true ∧
    compareAnswers [.bool true, .int 1] DefaultFloatPrecision = .ok false :=
  ⟨rfl, rfl⟩

theorem guessDataTypeTypes_false_eq (l : List (String × DTInfo)) (data : PyVal) (d : Nat) :
    guessDataTypeTypes l data d false =
      .ok ((l.find? (fun p => checkDataTypeTys p.2.pytypes d data)).map (fun p => (p.1, d))) := by
  induction l with
  | nil => rfl
  | cons p rest ih =>
    obtain ⟨name, info⟩ := p
    by_cases h : checkDataTypeTys info.pytypes d data = true
    · rw [List.find?_cons_of_pos _ (by simpa using h)]
      simp [guessDataTypeTypes, h]
    · rw [List.find?_cons_of_neg _ (by simpa using h)]
      simp only [guessDataTypeTypes, h, if_false, Bool.false_eq_true]
      exact ih

theorem guessTypes_registry (data : PyVal) (d : Nat) :
    guessDataTypeTypes IODataTypesInfo data d false =
      .ok ((registryMatch data d).map (fun p => (p.1, d))) :=
  guessDataTypeTypes_false_eq IODataTypesInfo data d

theorem guessDims_range'_ok (data : PyVal) (t : String) (d : Nat) :
    ∀ (k a : Nat), guessDataTypeDims (List.range' a k) data false = .ok (t, d) →
      a ≤ d ∧ d < a + k ∧
      (∀ d', a ≤ d' → d' < d → registryMatch data d' = Option.none) ∧
      (∃ info, registryMatch data d = some (t, info)) := by
  intro k
  induction k with
  | zero =>
    intro a h
    simp [List.range', guessDataTypeDims] at h
  | succ k ih =>
    intro a h
    rw [List.range'_succ] at h
    simp only [guessDataTypeDims, guessTypes_registry] at h
    cases hm : registryMatch data a with
    | some p =>
      rw [hm] at h
      simp only [Option.map_some'] at h
      injection h with h'
      injection h' with h1 h2
      subst h2
      refine ⟨le_rfl, by omega, fun d' hlo hhi => absurd (lt_of_le_of_lt hlo hhi) (lt_irrefl _), ?_⟩
      refine ⟨p.2, ?_⟩
      rw [hm]
      cases p
      simp only at h1
      rw [h1]
    | none =>
      rw [hm] at h
      simp only [Option.map_none'] at h
      obtain ⟨h1, h2, h3, h4⟩ := ih (a + 1) h
      refine ⟨by omega, by omega, fun d' hlo hhi => ?_, h4⟩
      rcases Nat.eq_or_lt_of_le hlo with heq | hlt
      · rw [← heq]
        exact hm
      · exact h3 d' hlt hhi

theorem guessDims_range'_fail (data : PyVal) :
    ∀ (k a : Nat), (∀ d', a ≤ d' → d' < a + k → registryMatch data d' = Option.none) →
      guessDataTypeDims (List.range' a k) data false = .error .failedDataValidation := by
  intro k
  induction k with
  | zero => intro a _; rfl
  | succ k ih =>
    intro a hall
    rw [List.range'_succ]
    have hnone : guessDataTypeTypes IODataTypesInfo data a false = .ok Option.none := by
      rw [guessTypes_registry, hall a le_rfl (by omega)]
      rfl
    simp only [guessDataTypeDims, hnone]
    exact ih (a + 1) (fun d' h1 h2 => hall d' (by omega) (by omega))

theorem find?_name_of_find?_pred :
    ∀ (l : List (String × DTInfo)), (l.map Prod.fst).Nodup →
      ∀ (pred : String × DTInfo → Bool) (t : String) (info : DTInfo),
        l.find? pred = some (t, info) → l.find? (fun p => p.1 == t) = some (t, info) := by
  intro l
  induction l with
  | nil =>
    intro _ pred t info h
    simp [List.find?] at h
  | cons p rest ih =>
    intro hnd pred t info h
    obtain ⟨n, i⟩ := p
    rw [List.map_cons, List.nodup_cons] at hnd
    by_cases hp : pred (n, i) = true
    · rw [List.find?_cons_of_pos _ hp] at h
      injection h with h'
      injection h' with h1 h2
      subst h1
      subst h2
      exact List.find?_cons_of_pos rest (by simp)
    · rw [List.find?_cons_of_neg _ hp] at h
      have hmem : (t, info) ∈ rest := List.mem_of_find?_eq_some h
      have htin : t ∈ rest.map Prod.fst := List.mem_map_of_mem Prod.fst hmem
      have hne : ¬ ((fun p : String × DTInfo => p.1 == t) (n, i) = true) := by
        simp only [beq_iff_eq]
        intro hb
        exact hnd.1 (hb ▸ htin)
      have hstep : List.find? (fun p : String × DTInfo => p.1 == t) ((n, i) :: rest) =
          List.find? (fun p : String × DTInfo => p.1 == t) rest :=
        List.find?_cons_of_neg rest hne
      rw [hstep]
      exact ih hnd.2 pred t info h

theorem registry_names_nodup : (IODataTypesInfo.map Prod.fst).Nodup := by
  decide

theorem lookupType_of_registryMatch {data : PyVal} {d : Nat} {t : String} {info : DTInfo}
    (h : registryMatch data d = some (t, info)) :
    lookupType t = some info ∧ checkDataTypeTys info.pytypes d data = true := by
  constructor
  · show (IODataTypesInfo.find? (fun p => p.1 == t)).map (fun p => p.2) = some info
    rw [find?_name_of_find?_pred IODataTypesInfo registry_names_nodup _ t info h]
    rfl
  · have := List.find?_some h
    simpa using this

/-- C4: whenever `guessDataType(value)` (no explicit dimension, no
constraint validation) returns `(t, d)`, then `checkDataType(value, t, d)`
is true, no registered type matches at any smaller dimension, and `t` is
the first entry of the registry, in declaration order, matching at
dimension `d`; and if no dimension up to the bound admits any matching
type, the search fails with `FailedDataValidation`. -/
theorem guessDataType_spec (maxDim : Nat) (data : PyVal) :
    (∀ t d, guessDataType maxDim data Option.none false = .ok (t, d) →
      checkDataType data t d = .ok true ∧
      (∀ d', d' < d → registryMatch data d' = Option.none) ∧
      (∃ info, registryMatch data d = some (t, info))) ∧
    ((∀ d', d' ≤ maxDim → registryMatch data d' = Option.none) →
      guessDataType maxDim data Option.none false = .error .failedDataValidation) := by
  constructor
  · intro t d h
    simp only [guessDataType] at h
    rw [List.range_eq_range'] at h
    obtain ⟨h1, h2, h3, h4⟩ := guessDims_range'_ok data t d (maxDim + 1) 0 h
    obtain ⟨info, hinfo⟩ := h4
    obtain ⟨hlook, hchk⟩ := lookupType_of_registryMatch hinfo
    refine ⟨?_, fun d' hd' => h3 d' (Nat.zero_le _) hd', ⟨info, hinfo⟩⟩
    simp only [checkDataType, hlook, hchk]
  · intro hall
    simp only [guessDataType]
    rw [List.range_eq_range']
    exact guessDims_range'_fail data (maxDim + 1) 0 (fun d' h1 h2 => hall d' (by omega))

/-- C4 witness: `guessDataType` on the integer `5` returns `("int", 0)`
with the stated properties, and on an empty dict (which no registered type
matches at any dimension) the search fails. -/
theorem guessDataType_spec_witness :
    (checkDataType (.int 5) "int" 0 = .ok true ∧
      (∃ info, registryMatch (.int 5) 0 = some ("int", info))) ∧
    guessDataType 2 (.dict []) Option.none false = .error .failedDataValidation := by
  constructor
  · have h := (guessDataType_spec 2 (.int 5)).1 "int" 0 rfl
    exact ⟨h.1, h.2.2⟩
  · refine (guessDataType_spec 2 (.dict [])).2 ?_
    intro d' hd'
    interval_cases d' <;> rfl

theorem checkDataTypeTys_of_nested {tys : List PyType} {d : Nat} {v : PyVal}
    (h : NestedSeqOf tys d v) : checkDataTypeTys tys d v = true := by
  induction h with
  | scalar v hv => simpa [checkDataTypeTys] using hv
  | listNode d xs hxs ih =>
    simp only [checkDataTypeTys, List.all_eq_true]
    exact ih
  | tupleNode d xs hxs ih =>
    simp only [checkDataTypeTys, List.all_eq_true]
    exact ih

/-- C8: for every registered type name and every dimension, a value that is
a `d`-deep nesting of ordered sequences over scalars of an accepted native
kind passes `checkDataType` at dimension `d`; and at positive dimension a
value that is not an ordered sequence yields false (not an error). -/
theorem checkDataType_nested_spec (name : String) (info : DTInfo)
    (hname : lookupType name = some info) (d : Nat) (v : PyVal) :
    (NestedSeqOf info.pytypes d v → checkDataType v name d = .ok true) ∧
    (0 < d → isOrderedSequence v = false → checkDataType v name d = .ok false) := by
  constructor
  · intro h
    simp only [checkDataType, hname, checkDataTypeTys_of_nested h]
  · intro hd hseq
    simp only [checkDataType, hname]
    cases d with
    | zero => exact absurd hd (lt_irrefl 0)
    | succ d => cases v <;> simp_all [checkDataTypeTys, isOrderedSequence]

/-- C8 witness: the nesting `[5]` of scalars accepted by `"int"` passes at
dimension 1, and the non-sequence `5` fails (with a false, not an error) at
dimension 1. -/
theorem checkDataType_nested_spec_witness :
    lookupType "int" = some intInfo ∧
    checkDataType (.list [.int 5]) "int" 1 = .ok true ∧
    (0 < 1 ∧ isOrderedSequence (.int 5) = false ∧
      checkDataType (.int 5) "int" 1 = .ok false) := by
  have hlook : lookupType "int" = some intInfo := rfl
  have hnest : NestedSeqOf intInfo.pytypes 1 (.list [.int 5]) := by
    refine .listNode 0 [.int 5] ?_
    intro x hx
    rw [List.mem_singleton] at hx
    subst hx
    exact .scalar _ rfl
  exact ⟨hlook,
    (checkDataType_nested_spec "int" intInfo hlook 1 (.list [.int 5])).1 hnest,
    Nat.one_pos, rfl,
    (checkDataType_nested_spec "int" intInfo hlook 1 (.int 5)).2 Nat.one_pos rfl⟩

/-- C10: a boolean scalar is inferred as `("int", 0)`, never `("bool", 0)`:
a Python `bool` is an instance of `int`, and `"int"` precedes `"bool"` in
registry declaration order. -/
theorem guessDataType_bool_is_int (maxDim : Nat) (b : Bool) :
    guessDataType maxDim (.bool b) Option.none false = .ok ("int", 0) := by
  have h0 : guessDataTypeTypes IODataTypesInfo (.bool b) 0 false = .ok (some ("int", 0)) := by
    cases b <;> rfl
  simp only [guessDataType]
  rw [List.range_eq_range', List.range'_succ]
  simp only [guessDataTypeDims, h0]

/-- C3 witness: the amended statement applied at precision `10`. -/
theorem compareAnswers_int_str_false_witness :
    compareAnswers [.int 1, .str "1"] 10 = .ok false :=
  compareAnswers_int_str_false 10

/-- C10 witness: the statement applied at bound `2` and the boolean
`True`. -/
theorem guessDataType_bool_is_int_witness :
    guessDataType 2 (.bool true) Option.none false = .ok ("int", 0) :=
  guessDataType_bool_is_int 2 true
